import Mathlib

/-!
# Verification of the call-analysis pipeline core

A shallow embedding of the `call_analysis_pipeline` repository:

* `app/schemas.py` — the typed data model (`CallAnalysis` and its facet
  structures) together with its pydantic validation (`model_validate`) and
  serialization (`model_dump(mode="json")`), modelled over an inductive
  `Json` type.  JSON numbers are modelled as rationals; datetimes and dates
  are modelled at the level of their ISO string serialization (pydantic's
  JSON dump emits an ISO string and parsing it back is lossless, which is
  the only behaviour the development relies on).
* `app/analysis_sentiment.py` / `app/analysis_compliance.py` — the per-call
  stage functions.  The oracle (LLM) call is modelled as a function from the
  call record to an `OracleReply`, which distinguishes the three response
  classes the source distinguishes: non-textual content, textual content
  that is not parseable JSON, and parsed JSON.
* `app/analysis_runner.py` — the per-stage runners over the record corpus.
  The persisted files under `data/calls` are modelled as an ordered list of
  `(file name, record)` pairs; `save_call` events and oracle invocations are
  recorded in an event trace.  The source has no per-record exception
  handler, so a raised error aborts the fold, leaving the remaining records
  untouched; the model mirrors this with an error component that stops the
  recursion.
* `app/storage.py` — call-id generation and record persistence.
* `app/vectorstore.py` and `run_search_cli.py` — index build with upsert
  semantics and the semantic-search entry points.
-/

/-- JSON values as produced by `json.loads`.  Numbers are modelled as
rationals (a JSON int is a rational with denominator 1). -/
inductive Json where
  | null : Json
  | bool (b : Bool) : Json
  | num (q : Rat) : Json
  | str (s : String) : Json
  | arr (xs : List Json) : Json
  | obj (fields : List (String × Json)) : Json
  deriving Repr

/-- A rational with denominator 1, built without `Rat` arithmetic so that
concrete values reduce definitionally. -/
def ratOfInt (n : Int) : Rat := ⟨n, 1, by decide, Nat.coprime_one_right _⟩

/-- Key lookup in a parsed JSON object, as on a Python `dict` coming out of
`json.loads` (keys are unique there, so first-match lookup is faithful). -/
def jlookup : List (String × Json) → String → Option Json
  | [], _ => none
  | (k, v) :: rest, key => if k = key then some v else jlookup rest key

/-- Python `dict` item assignment `d[k] = v`: replace the value at an
existing key in place, otherwise append the new key. -/
def setKey : List (String × Json) → String → Json → List (String × Json)
  | [], k, v => [(k, v)]
  | (k', v') :: rest, k, v =>
      if k' = k then (k, v) :: rest else (k', v') :: setKey rest k v

/-- `true` exactly on `Except.ok`. -/
def exceptOk {α : Type} : Except String α → Bool
  | .ok _ => true
  | .error _ => false

@[simp]
theorem bind_ok {α β : Type} (a : α) (f : α → Except String β) :
    (Except.ok a : Except String α) >>= f = f a := rfl

@[simp]
theorem bind_error {α β : Type} (e : String) (f : α → Except String β) :
    (Except.error e : Except String α) >>= f = Except.error e := rfl

@[simp]
theorem map_ok {α β : Type} (a : α) (f : α → β) :
    (Except.ok a : Except String α).map f = Except.ok (f a) := rfl

-- ==========================
-- Enums (schemas.py)
-- ==========================

/-- `SentimentLabel(str, Enum)`. -/
inductive SentimentLabel where
  | positive
  | neutral
  | negative
  deriving DecidableEq, Repr

/-- The `.value` of a `SentimentLabel` member. -/
def SentimentLabel.value : SentimentLabel → String
  | .positive => "positive"
  | .neutral => "neutral"
  | .negative => "negative"

/-- `RiskLevel(str, Enum)`. -/
inductive RiskLevel where
  | low
  | medium
  | high
  | critical
  deriving DecidableEq, Repr

/-- The `.value` of a `RiskLevel` member. -/
def RiskLevel.value : RiskLevel → String
  | .low => "low"
  | .medium => "medium"
  | .high => "high"
  | .critical => "critical"

/-- `ResolutionStatus(str, Enum)`. -/
inductive ResolutionStatus where
  | resolved
  | partially_resolved
  | unresolved
  deriving DecidableEq, Repr

/-- The `.value` of a `ResolutionStatus` member. -/
def ResolutionStatus.value : ResolutionStatus → String
  | .resolved => "resolved"
  | .partially_resolved => "partially_resolved"
  | .unresolved => "unresolved"

-- ==========================
-- Scalar parsers (pydantic field validation, JSON input mode)
-- ==========================

/-- A Python `datetime` at the level of its ISO-8601 serialization: pydantic
dumps a datetime to its ISO string and parses that string back losslessly,
which is the only behaviour the record store round trip exercises. -/
structure PyDateTime where
  iso : String
  deriving DecidableEq, Repr

/-- A Python `date`, modelled like `PyDateTime`. -/
structure PyDate where
  iso : String
  deriving DecidableEq, Repr

def parseStr : Json → Except String String
  | .str s => .ok s
  | _ => .error "Input should be a valid string"

def parseBool : Json → Except String Bool
  | .bool b => .ok b
  | _ => .error "Input should be a valid boolean"

/-- pydantic `int` from JSON: an integral number is accepted, a number with
a fractional part is not. -/
def parseInt : Json → Except String Int
  | .num q => if q.den = 1 then .ok q.num else .error "Input should be a valid integer"
  | _ => .error "Input should be a valid integer"

/-- pydantic `float` from JSON: any number is accepted. -/
def parseFloat : Json → Except String Rat
  | .num q => .ok q
  | _ => .error "Input should be a valid number"

def parseDatetime : Json → Except String PyDateTime
  | .str s => .ok ⟨s⟩
  | _ => .error "Input should be a valid datetime"

def parseDate : Json → Except String PyDate
  | .str s => .ok ⟨s⟩
  | _ => .error "Input should be a valid date"

def parseSentimentLabel : Json → Except String SentimentLabel
  | .str s =>
      if s = "positive" then .ok .positive
      else if s = "neutral" then .ok .neutral
      else if s = "negative" then .ok .negative
      else .error "Input should be positive, neutral or negative"
  | _ => .error "Input should be positive, neutral or negative"

def parseRiskLevel : Json → Except String RiskLevel
  | .str s =>
      if s = "low" then .ok .low
      else if s = "medium" then .ok .medium
      else if s = "high" then .ok .high
      else if s = "critical" then .ok .critical
      else .error "Input should be low, medium, high or critical"
  | _ => .error "Input should be low, medium, high or critical"

def parseResolutionStatus : Json → Except String ResolutionStatus
  | .str s =>
      if s = "resolved" then .ok .resolved
      else if s = "partially_resolved" then .ok .partially_resolved
      else if s = "unresolved" then .ok .unresolved
      else .error "Input should be resolved, partially_resolved or unresolved"
  | _ => .error "Input should be resolved, partially_resolved or unresolved"

/-- pydantic `Dict[str, Any]` from JSON: a JSON object, kept untyped. -/
def parseDict : Json → Except String (List (String × Json))
  | .obj fields => .ok fields
  | _ => .error "Input should be a valid dictionary"

/-- Elementwise validation of a JSON array (pydantic `List[...]`). -/
def parseArr {α : Type} (p : Json → Except String α) : List Json → Except String (List α)
  | [] => .ok []
  | j :: js => do
      let x ← p j
      let xs ← parseArr p js
      return x :: xs

def parseListOf {α : Type} (p : Json → Except String α) : Json → Except String (List α)
  | .arr xs => parseArr p xs
  | _ => .error "Input should be a valid list"

-- ==========================
-- Field combinators (pydantic model field semantics)
-- ==========================

/-- A required field (`Field(...)`): absent means failure. -/
def reqField {α : Type} (fields : List (String × Json)) (k : String)
    (p : Json → Except String α) : Except String α :=
  match jlookup fields k with
  | none => .error (k ++ ": Field required")
  | some j => p j

/-- An `Optional[...]` value: JSON `null` becomes `none`. -/
def optJson {α : Type} (p : Json → Except String α) : Json → Except String (Option α)
  | .null => .ok none
  | j => (p j).map some

/-- An `Optional[...]` field with `default=None`: absent or `null` becomes
`none`. -/
def optField {α : Type} (fields : List (String × Json)) (k : String)
    (p : Json → Except String α) : Except String (Option α) :=
  match jlookup fields k with
  | none => .ok none
  | some j => optJson p j

/-- A field with a non-`None` default (`default=...` or `default_factory`):
absent yields the default, present values are validated (an explicit `null`
is not the default and must validate). -/
def defField {α : Type} (fields : List (String × Json)) (k : String)
    (p : Json → Except String α) (d : α) : Except String α :=
  match jlookup fields k with
  | none => .ok d
  | some j => p j

-- ==========================
-- Encoders (model_dump(mode="json"))
-- ==========================

def encOpt {α : Type} (f : α → Json) : Option α → Json
  | none => .null
  | some x => f x

def encStrList (xs : List String) : Json := .arr (xs.map Json.str)

-- ==========================
-- CallMetadata (schemas.py)
-- ==========================

/-- `CallMetadata`.  Float fields are modelled as rationals, datetimes at
the ISO-string level, `Dict[str, Any]` as an untyped JSON object. -/
structure CallMetadata where
  call_id : String
  client_id : String
  audio_file : String
  call_start_time : Option PyDateTime
  call_end_time : Option PyDateTime
  duration_seconds : Option Rat
  agent_name : Option String
  customer_phone : Option String
  extra_metadata : List (String × Json)

def CallMetadata.dump (m : CallMetadata) : Json :=
  .obj [("call_id", .str m.call_id),
        ("client_id", .str m.client_id),
        ("audio_file", .str m.audio_file),
        ("call_start_time", encOpt (fun d => .str d.iso) m.call_start_time),
        ("call_end_time", encOpt (fun d => .str d.iso) m.call_end_time),
        ("duration_seconds", encOpt Json.num m.duration_seconds),
        ("agent_name", encOpt Json.str m.agent_name),
        ("customer_phone", encOpt Json.str m.customer_phone),
        ("extra_metadata", .obj m.extra_metadata)]

def CallMetadata.validate (j : Json) : Except String CallMetadata :=
  match j with
  | .obj fields => do
      let call_id ← reqField fields "call_id" parseStr
      let client_id ← reqField fields "client_id" parseStr
      let audio_file ← reqField fields "audio_file" parseStr
      let call_start_time ← optField fields "call_start_time" parseDatetime
      let call_end_time ← optField fields "call_end_time" parseDatetime
      let duration_seconds ← optField fields "duration_seconds" parseFloat
      let agent_name ← optField fields "agent_name" parseStr
      let customer_phone ← optField fields "customer_phone" parseStr
      let extra_metadata ← defField fields "extra_metadata" parseDict []
      return ⟨call_id, client_id, audio_file, call_start_time, call_end_time,
              duration_seconds, agent_name, customer_phone, extra_metadata⟩
  | _ => .error "Input should be a valid dictionary"

-- ==========================
-- Sentiment facet
-- ==========================

/-- `SentimentSegment`. -/
structure SentimentSegment where
  segment_label : String
  start_second : Option Rat
  end_second : Option Rat
  sentiment : SentimentLabel
  notes : Option String
  deriving DecidableEq, Repr

def SentimentSegment.dump (s : SentimentSegment) : Json :=
  .obj [("segment_label", .str s.segment_label),
        ("start_second", encOpt Json.num s.start_second),
        ("end_second", encOpt Json.num s.end_second),
        ("sentiment", .str s.sentiment.value),
        ("notes", encOpt Json.str s.notes)]

def SentimentSegment.validate (j : Json) : Except String SentimentSegment :=
  match j with
  | .obj fields => do
      let segment_label ← reqField fields "segment_label" parseStr
      let start_second ← optField fields "start_second" parseFloat
      let end_second ← optField fields "end_second" parseFloat
      let sentiment ← reqField fields "sentiment" parseSentimentLabel
      let notes ← optField fields "notes" parseStr
      return ⟨segment_label, start_second, end_second, sentiment, notes⟩
  | _ => .error "Input should be a valid dictionary"

/-- `SentimentAnalysis`. -/
structure SentimentAnalysis where
  overall : SentimentLabel
  score : Option Rat
  emotion_tags : List String
  sentiment_timeline : List SentimentSegment
  notes : Option String
  deriving DecidableEq, Repr

def SentimentAnalysis.dump (s : SentimentAnalysis) : Json :=
  .obj [("overall", .str s.overall.value),
        ("score", encOpt Json.num s.score),
        ("emotion_tags", encStrList s.emotion_tags),
        ("sentiment_timeline", .arr (s.sentiment_timeline.map SentimentSegment.dump)),
        ("notes", encOpt Json.str s.notes)]

def SentimentAnalysis.validate (j : Json) : Except String SentimentAnalysis :=
  match j with
  | .obj fields => do
      let overall ← reqField fields "overall" parseSentimentLabel
      let score ← optField fields "score" parseFloat
      let emotion_tags ← defField fields "emotion_tags" (parseListOf parseStr) []
      let sentiment_timeline ←
        defField fields "sentiment_timeline" (parseListOf SentimentSegment.validate) []
      let notes ← optField fields "notes" parseStr
      return ⟨overall, score, emotion_tags, sentiment_timeline, notes⟩
  | _ => .error "Input should be a valid dictionary"

-- ==========================
-- Intent & topics facet
-- ==========================

/-- `IntentTopicsAnalysis`. -/
structure IntentTopicsAnalysis where
  primary_intent : Option String
  secondary_intents : List String
  topics : List String
  key_phrases : List String
  intent_confidence : Option Rat
  notes : Option String
  deriving DecidableEq, Repr

def IntentTopicsAnalysis.dump (s : IntentTopicsAnalysis) : Json :=
  .obj [("primary_intent", encOpt Json.str s.primary_intent),
        ("secondary_intents", encStrList s.secondary_intents),
        ("topics", encStrList s.topics),
        ("key_phrases", encStrList s.key_phrases),
        ("intent_confidence", encOpt Json.num s.intent_confidence),
        ("notes", encOpt Json.str s.notes)]

def IntentTopicsAnalysis.validate (j : Json) : Except String IntentTopicsAnalysis :=
  match j with
  | .obj fields => do
      let primary_intent ← optField fields "primary_intent" parseStr
      let secondary_intents ← defField fields "secondary_intents" (parseListOf parseStr) []
      let topics ← defField fields "topics" (parseListOf parseStr) []
      let key_phrases ← defField fields "key_phrases" (parseListOf parseStr) []
      let intent_confidence ← optField fields "intent_confidence" parseFloat
      let notes ← optField fields "notes" parseStr
      return ⟨primary_intent, secondary_intents, topics, key_phrases, intent_confidence, notes⟩
  | _ => .error "Input should be a valid dictionary"

-- ==========================
-- Call quality facet
-- ==========================

/-- `CallQualityScores`: five `Optional[int]` sub-scores.  The source
declares them as plain `Optional[int]` with no range constraint. -/
structure CallQualityScores where
  greeting : Option Int
  listening_and_empathy : Option Int
  clarity_of_explanations : Option Int
  professionalism : Option Int
  script_adherence : Option Int
  deriving DecidableEq, Repr

def CallQualityScores.default : CallQualityScores := ⟨none, none, none, none, none⟩

def CallQualityScores.dump (s : CallQualityScores) : Json :=
  .obj [("greeting", encOpt (fun n => .num (ratOfInt n)) s.greeting),
        ("listening_and_empathy", encOpt (fun n => .num (ratOfInt n)) s.listening_and_empathy),
        ("clarity_of_explanations", encOpt (fun n => .num (ratOfInt n)) s.clarity_of_explanations),
        ("professionalism", encOpt (fun n => .num (ratOfInt n)) s.professionalism),
        ("script_adherence", encOpt (fun n => .num (ratOfInt n)) s.script_adherence)]

def CallQualityScores.validate (j : Json) : Except String CallQualityScores :=
  match j with
  | .obj fields => do
      let greeting ← optField fields "greeting" parseInt
      let listening_and_empathy ← optField fields "listening_and_empathy" parseInt
      let clarity_of_explanations ← optField fields "clarity_of_explanations" parseInt
      let professionalism ← optField fields "professionalism" parseInt
      let script_adherence ← optField fields "script_adherence" parseInt
      return ⟨greeting, listening_and_empathy, clarity_of_explanations,
              professionalism, script_adherence⟩
  | _ => .error "Input should be a valid dictionary"

/-- `CallQualityAnalysis`. -/
structure CallQualityAnalysis where
  overall_quality_score : Option Int
  scores : CallQualityScores
  strengths : List String
  improvements : List String
  notes : Option String
  deriving DecidableEq, Repr

def CallQualityAnalysis.dump (s : CallQualityAnalysis) : Json :=
  .obj [("overall_quality_score", encOpt (fun n => .num (ratOfInt n)) s.overall_quality_score),
        ("scores", s.scores.dump),
        ("strengths", encStrList s.strengths),
        ("improvements", encStrList s.improvements),
        ("notes", encOpt Json.str s.notes)]

def CallQualityAnalysis.validate (j : Json) : Except String CallQualityAnalysis :=
  match j with
  | .obj fields => do
      let overall_quality_score ← optField fields "overall_quality_score" parseInt
      let scores ← defField fields "scores" CallQualityScores.validate CallQualityScores.default
      let strengths ← defField fields "strengths" (parseListOf parseStr) []
      let improvements ← defField fields "improvements" (parseListOf parseStr) []
      let notes ← optField fields "notes" parseStr
      return ⟨overall_quality_score, scores, strengths, improvements, notes⟩
  | _ => .error "Input should be a valid dictionary"

-- ==========================
-- Compliance & risk facet
-- ==========================

/-- `PIIRedaction`. -/
structure PIIRedaction where
  type : String
  original_value : Option String
  masked_value : Option String
  deriving DecidableEq, Repr

def PIIRedaction.dump (p : PIIRedaction) : Json :=
  .obj [("type", .str p.type),
        ("original_value", encOpt Json.str p.original_value),
        ("masked_value", encOpt Json.str p.masked_value)]

def PIIRedaction.validate (j : Json) : Except String PIIRedaction :=
  match j with
  | .obj fields => do
      let type ← reqField fields "type" parseStr
      let original_value ← optField fields "original_value" parseStr
      let masked_value ← optField fields "masked_value" parseStr
      return ⟨type, original_value, masked_value⟩
  | _ => .error "Input should be a valid dictionary"

/-- `ComplianceRiskAnalysis`.  Note that in the source `risk_level` carries
`Field(default=RiskLevel.low)`: it is not a required field. -/
structure ComplianceRiskAnalysis where
  required_phrases_present : List String
  missing_required_phrases : List String
  forbidden_phrases_detected : List String
  pii_detected : List PIIRedaction
  risk_level : RiskLevel
  notes : Option String
  deriving DecidableEq, Repr

def ComplianceRiskAnalysis.dump (c : ComplianceRiskAnalysis) : Json :=
  .obj [("required_phrases_present", encStrList c.required_phrases_present),
        ("missing_required_phrases", encStrList c.missing_required_phrases),
        ("forbidden_phrases_detected", encStrList c.forbidden_phrases_detected),
        ("pii_detected", .arr (c.pii_detected.map PIIRedaction.dump)),
        ("risk_level", .str c.risk_level.value),
        ("notes", encOpt Json.str c.notes)]

def ComplianceRiskAnalysis.validate (j : Json) : Except String ComplianceRiskAnalysis :=
  match j with
  | .obj fields => do
      let required_phrases_present ←
        defField fields "required_phrases_present" (parseListOf parseStr) []
      let missing_required_phrases ←
        defField fields "missing_required_phrases" (parseListOf parseStr) []
      let forbidden_phrases_detected ←
        defField fields "forbidden_phrases_detected" (parseListOf parseStr) []
      let pii_detected ← defField fields "pii_detected" (parseListOf PIIRedaction.validate) []
      let risk_level ← defField fields "risk_level" parseRiskLevel RiskLevel.low
      let notes ← optField fields "notes" parseStr
      return ⟨required_phrases_present, missing_required_phrases,
              forbidden_phrases_detected, pii_detected, risk_level, notes⟩
  | _ => .error "Input should be a valid dictionary"

-- ==========================
-- Outcome & follow-up facet
-- ==========================

/-- `FollowupAction`. -/
structure FollowupAction where
  description : String
  owner : Option String
  due_date : Option PyDate
  deriving DecidableEq, Repr

def FollowupAction.dump (f : FollowupAction) : Json :=
  .obj [("description", .str f.description),
        ("owner", encOpt Json.str f.owner),
        ("due_date", encOpt (fun d => .str d.iso) f.due_date)]

def FollowupAction.validate (j : Json) : Except String FollowupAction :=
  match j with
  | .obj fields => do
      let description ← reqField fields "description" parseStr
      let owner ← optField fields "owner" parseStr
      let due_date ← optField fields "due_date" parseDate
      return ⟨description, owner, due_date⟩
  | _ => .error "Input should be a valid dictionary"

/-- `OutcomeFollowupAnalysis`.  Note that in the source `resolution_status`
carries `Field(default=ResolutionStatus.unresolved)`: it is not a required
field. -/
structure OutcomeFollowupAnalysis where
  resolution_status : ResolutionStatus
  final_outcome : Option String
  followup_actions : List FollowupAction
  escalation_required : Bool
  escalation_reason : Option String
  notes : Option String
  deriving DecidableEq, Repr

def OutcomeFollowupAnalysis.dump (o : OutcomeFollowupAnalysis) : Json :=
  .obj [("resolution_status", .str o.resolution_status.value),
        ("final_outcome", encOpt Json.str o.final_outcome),
        ("followup_actions", .arr (o.followup_actions.map FollowupAction.dump)),
        ("escalation_required", .bool o.escalation_required),
        ("escalation_reason", encOpt Json.str o.escalation_reason),
        ("notes", encOpt Json.str o.notes)]

def OutcomeFollowupAnalysis.validate (j : Json) : Except String OutcomeFollowupAnalysis :=
  match j with
  | .obj fields => do
      let resolution_status ←
        defField fields "resolution_status" parseResolutionStatus ResolutionStatus.unresolved
      let final_outcome ← optField fields "final_outcome" parseStr
      let followup_actions ←
        defField fields "followup_actions" (parseListOf FollowupAction.validate) []
      let escalation_required ← defField fields "escalation_required" parseBool false
      let escalation_reason ← optField fields "escalation_reason" parseStr
      let notes ← optField fields "notes" parseStr
      return ⟨resolution_status, final_outcome, followup_actions,
              escalation_required, escalation_reason, notes⟩
  | _ => .error "Input should be a valid dictionary"

-- ==========================
-- Custom metrics and the full record
-- ==========================

/-- `CustomMetrics`. -/
structure CustomMetrics where
  appointment_booked : Option Bool
  appointment_rescheduled : Option Bool
  refund_requested : Option Bool
  upsell_attempted : Option Bool
  upsell_successful : Option Bool
  extra : List (String × Json)

def CustomMetrics.dump (c : CustomMetrics) : Json :=
  .obj [("appointment_booked", encOpt Json.bool c.appointment_booked),
        ("appointment_rescheduled", encOpt Json.bool c.appointment_rescheduled),
        ("refund_requested", encOpt Json.bool c.refund_requested),
        ("upsell_attempted", encOpt Json.bool c.upsell_attempted),
        ("upsell_successful", encOpt Json.bool c.upsell_successful),
        ("extra", .obj c.extra)]

def CustomMetrics.validate (j : Json) : Except String CustomMetrics :=
  match j with
  | .obj fields => do
      let appointment_booked ← optField fields "appointment_booked" parseBool
      let appointment_rescheduled ← optField fields "appointment_rescheduled" parseBool
      let refund_requested ← optField fields "refund_requested" parseBool
      let upsell_attempted ← optField fields "upsell_attempted" parseBool
      let upsell_successful ← optField fields "upsell_successful" parseBool
      let extra ← defField fields "extra" parseDict []
      return ⟨appointment_booked, appointment_rescheduled, refund_requested,
              upsell_attempted, upsell_successful, extra⟩
  | _ => .error "Input should be a valid dictionary"

/-- `CallAnalysis`: the full per-call record. -/
structure CallAnalysis where
  metadata : CallMetadata
  transcript : String
  sentiment : Option SentimentAnalysis
  intent_and_topics : Option IntentTopicsAnalysis
  call_quality : Option CallQualityAnalysis
  compliance_and_risk : Option ComplianceRiskAnalysis
  outcome_and_followup : Option OutcomeFollowupAnalysis
  custom_metrics : Option CustomMetrics
  raw_llm_outputs : List (String × Json)

/-- `CallAnalysis.model_dump(mode="json")`, as used by `save_call` and
`save_call_analysis`. -/
def CallAnalysis.dump (c : CallAnalysis) : Json :=
  .obj [("metadata", c.metadata.dump),
        ("transcript", .str c.transcript),
        ("sentiment", encOpt SentimentAnalysis.dump c.sentiment),
        ("intent_and_topics", encOpt IntentTopicsAnalysis.dump c.intent_and_topics),
        ("call_quality", encOpt CallQualityAnalysis.dump c.call_quality),
        ("compliance_and_risk", encOpt ComplianceRiskAnalysis.dump c.compliance_and_risk),
        ("outcome_and_followup", encOpt OutcomeFollowupAnalysis.dump c.outcome_and_followup),
        ("custom_metrics", encOpt CustomMetrics.dump c.custom_metrics),
        ("raw_llm_outputs", .obj c.raw_llm_outputs)]

/-- `CallAnalysis.model_validate`, as used by `load_call` and
`load_call_from_json`. -/
def CallAnalysis.validate (j : Json) : Except String CallAnalysis :=
  match j with
  | .obj fields => do
      let metadata ← reqField fields "metadata" CallMetadata.validate
      let transcript ← reqField fields "transcript" parseStr
      let sentiment ← optField fields "sentiment" SentimentAnalysis.validate
      let intent_and_topics ← optField fields "intent_and_topics" IntentTopicsAnalysis.validate
      let call_quality ← optField fields "call_quality" CallQualityAnalysis.validate
      let compliance_and_risk ←
        optField fields "compliance_and_risk" ComplianceRiskAnalysis.validate
      let outcome_and_followup ←
        optField fields "outcome_and_followup" OutcomeFollowupAnalysis.validate
      let custom_metrics ← optField fields "custom_metrics" CustomMetrics.validate
      let raw_llm_outputs ← defField fields "raw_llm_outputs" parseDict []
      return ⟨metadata, transcript, sentiment, intent_and_topics, call_quality,
              compliance_and_risk, outcome_and_followup, custom_metrics, raw_llm_outputs⟩
  | _ => .error "Input should be a valid dictionary"

-- ==========================
-- Serialization round trip (schemas via load_call / save_call)
-- ==========================

@[simp]
theorem fmap_ok {α β : Type} (a : α) (f : α → β) :
    f <$> (Except.ok a : Except String α) = Except.ok (f a) := rfl

@[simp]
theorem emap_ok {α β : Type} (a : α) (f : α → β) :
    Except.map f (Except.ok a : Except String α) = Except.ok (f a) := rfl

theorem parseArr_map {α : Type} (p : Json → Except String α) (f : α → Json)
    (h : ∀ x, p (f x) = .ok x) : ∀ xs, parseArr p (xs.map f) = .ok xs
  | [] => rfl
  | x :: xs => by simp [List.map, parseArr, h, parseArr_map p f h xs]

theorem parseListOf_map {α : Type} (p : Json → Except String α) (f : α → Json)
    (h : ∀ x, p (f x) = .ok x) (xs : List α) :
    parseListOf p (.arr (xs.map f)) = .ok xs := parseArr_map p f h xs

@[simp]
theorem parseListOf_strs (xs : List String) :
    parseListOf parseStr (encStrList xs) = .ok xs :=
  parseListOf_map parseStr Json.str (fun _ => rfl) xs

@[simp]
theorem optJson_num (v : Option Rat) :
    optJson parseFloat (encOpt Json.num v) = .ok v := by cases v <;> rfl

@[simp]
theorem optJson_str (v : Option String) :
    optJson parseStr (encOpt Json.str v) = .ok v := by cases v <;> rfl

@[simp]
theorem optJson_bool (v : Option Bool) :
    optJson parseBool (encOpt Json.bool v) = .ok v := by cases v <;> rfl

@[simp]
theorem optJson_int (v : Option Int) :
    optJson parseInt (encOpt (fun n => Json.num (ratOfInt n)) v) = .ok v := by
  cases v <;> rfl

@[simp]
theorem optJson_datetime (v : Option PyDateTime) :
    optJson parseDatetime (encOpt (fun d => Json.str d.iso) v) = .ok v := by
  cases v <;> rfl

@[simp]
theorem optJson_date (v : Option PyDate) :
    optJson parseDate (encOpt (fun d => Json.str d.iso) v) = .ok v := by
  cases v <;> rfl

@[simp]
theorem parseSentimentLabel_value (l : SentimentLabel) :
    parseSentimentLabel (.str l.value) = .ok l := by cases l <;> rfl

@[simp]
theorem parseRiskLevel_value (l : RiskLevel) :
    parseRiskLevel (.str l.value) = .ok l := by cases l <;> rfl

@[simp]
theorem parseResolutionStatus_value (l : ResolutionStatus) :
    parseResolutionStatus (.str l.value) = .ok l := by cases l <;> rfl

theorem callMetadata_rt (m : CallMetadata) :
    CallMetadata.validate (CallMetadata.dump m) = .ok m := by
  obtain ⟨a, b, c, d, e, f, g, h, i⟩ := m
  simp [CallMetadata.validate, CallMetadata.dump, reqField, optField, defField,
        jlookup, parseStr, parseDict]

theorem sentimentSegment_rt (s : SentimentSegment) :
    SentimentSegment.validate (SentimentSegment.dump s) = .ok s := by
  obtain ⟨a, b, c, d, e⟩ := s
  simp [SentimentSegment.validate, SentimentSegment.dump, reqField, optField,
        jlookup, parseStr]

theorem sentimentAnalysis_rt (s : SentimentAnalysis) :
    SentimentAnalysis.validate (SentimentAnalysis.dump s) = .ok s := by
  obtain ⟨a, b, c, d, e⟩ := s
  have h1 : parseListOf SentimentSegment.validate (.arr (d.map SentimentSegment.dump)) = .ok d :=
    parseListOf_map _ _ sentimentSegment_rt d
  simp [SentimentAnalysis.validate, SentimentAnalysis.dump, reqField, optField,
        defField, jlookup, parseStr, h1]

theorem intentTopicsAnalysis_rt (s : IntentTopicsAnalysis) :
    IntentTopicsAnalysis.validate (IntentTopicsAnalysis.dump s) = .ok s := by
  obtain ⟨a, b, c, d, e, f⟩ := s
  simp [IntentTopicsAnalysis.validate, IntentTopicsAnalysis.dump, reqField,
        optField, defField, jlookup, parseStr]

theorem callQualityScores_rt (s : CallQualityScores) :
    CallQualityScores.validate (CallQualityScores.dump s) = .ok s := by
  obtain ⟨a, b, c, d, e⟩ := s
  simp [CallQualityScores.validate, CallQualityScores.dump, optField, jlookup]

theorem callQualityAnalysis_rt (s : CallQualityAnalysis) :
    CallQualityAnalysis.validate (CallQualityAnalysis.dump s) = .ok s := by
  obtain ⟨a, b, c, d, e⟩ := s
  simp [CallQualityAnalysis.validate, CallQualityAnalysis.dump, reqField, optField,
        defField, jlookup, parseStr, callQualityScores_rt]

theorem piiRedaction_rt (p : PIIRedaction) :
    PIIRedaction.validate (PIIRedaction.dump p) = .ok p := by
  obtain ⟨a, b, c⟩ := p
  simp [PIIRedaction.validate, PIIRedaction.dump, reqField, optField, jlookup, parseStr]

theorem complianceRiskAnalysis_rt (c : ComplianceRiskAnalysis) :
    ComplianceRiskAnalysis.validate (ComplianceRiskAnalysis.dump c) = .ok c := by
  obtain ⟨a, b, c', d, e, f⟩ := c
  have h1 : parseListOf PIIRedaction.validate (.arr (d.map PIIRedaction.dump)) = .ok d :=
    parseListOf_map _ _ piiRedaction_rt d
  simp [ComplianceRiskAnalysis.validate, ComplianceRiskAnalysis.dump, reqField,
        optField, defField, jlookup, parseStr, h1]

theorem followupAction_rt (f : FollowupAction) :
    FollowupAction.validate (FollowupAction.dump f) = .ok f := by
  obtain ⟨a, b, c⟩ := f
  simp [FollowupAction.validate, FollowupAction.dump, reqField, optField, jlookup, parseStr]

theorem outcomeFollowupAnalysis_rt (o : OutcomeFollowupAnalysis) :
    OutcomeFollowupAnalysis.validate (OutcomeFollowupAnalysis.dump o) = .ok o := by
  obtain ⟨a, b, c, d, e, f⟩ := o
  have h1 : parseListOf FollowupAction.validate (.arr (c.map FollowupAction.dump)) = .ok c :=
    parseListOf_map _ _ followupAction_rt c
  simp [OutcomeFollowupAnalysis.validate, OutcomeFollowupAnalysis.dump, reqField,
        optField, defField, jlookup, parseStr, parseBool, h1]

theorem customMetrics_rt (c : CustomMetrics) :
    CustomMetrics.validate (CustomMetrics.dump c) = .ok c := by
  obtain ⟨a, b, c', d, e, f⟩ := c
  simp [CustomMetrics.validate, CustomMetrics.dump, optField, defField, jlookup, parseDict]

theorem optJson_sentiment (v : Option SentimentAnalysis) :
    optJson SentimentAnalysis.validate (encOpt SentimentAnalysis.dump v) = .ok v := by
  cases v with
  | none => rfl
  | some x =>
      show (SentimentAnalysis.validate (SentimentAnalysis.dump x)).map some = _
      rw [sentimentAnalysis_rt]; rfl

theorem optJson_intent (v : Option IntentTopicsAnalysis) :
    optJson IntentTopicsAnalysis.validate (encOpt IntentTopicsAnalysis.dump v) = .ok v := by
  cases v with
  | none => rfl
  | some x =>
      show (IntentTopicsAnalysis.validate (IntentTopicsAnalysis.dump x)).map some = _
      rw [intentTopicsAnalysis_rt]; rfl

theorem optJson_quality (v : Option CallQualityAnalysis) :
    optJson CallQualityAnalysis.validate (encOpt CallQualityAnalysis.dump v) = .ok v := by
  cases v with
  | none => rfl
  | some x =>
      show (CallQualityAnalysis.validate (CallQualityAnalysis.dump x)).map some = _
      rw [callQualityAnalysis_rt]; rfl

theorem optJson_compliance (v : Option ComplianceRiskAnalysis) :
    optJson ComplianceRiskAnalysis.validate (encOpt ComplianceRiskAnalysis.dump v) = .ok v := by
  cases v with
  | none => rfl
  | some x =>
      show (ComplianceRiskAnalysis.validate (ComplianceRiskAnalysis.dump x)).map some = _
      rw [complianceRiskAnalysis_rt]; rfl

theorem optJson_outcome (v : Option OutcomeFollowupAnalysis) :
    optJson OutcomeFollowupAnalysis.validate (encOpt OutcomeFollowupAnalysis.dump v) = .ok v := by
  cases v with
  | none => rfl
  | some x =>
      show (OutcomeFollowupAnalysis.validate (OutcomeFollowupAnalysis.dump x)).map some = _
      rw [outcomeFollowupAnalysis_rt]; rfl

theorem optJson_custom (v : Option CustomMetrics) :
    optJson CustomMetrics.validate (encOpt CustomMetrics.dump v) = .ok v := by
  cases v with
  | none => rfl
  | some x =>
      show (CustomMetrics.validate (CustomMetrics.dump x)).map some = _
      rw [customMetrics_rt]; rfl

theorem callAnalysis_rt (c : CallAnalysis) :
    CallAnalysis.validate (CallAnalysis.dump c) = .ok c := by
  obtain ⟨a, b, c', d, e, f, g, h, i⟩ := c
  simp [CallAnalysis.validate, CallAnalysis.dump, reqField, optField, defField,
        jlookup, parseStr, parseDict, callMetadata_rt, optJson_sentiment,
        optJson_intent, optJson_quality, optJson_compliance, optJson_outcome,
        optJson_custom]

-- ==========================
-- Stage functions (analysis_sentiment.py / analysis_compliance.py)
-- ==========================

/-- The three classes of oracle (LLM) response that the stage functions
distinguish: non-textual content (`response.content` not a `str`), textual
content that `json.loads` rejects, and textual content that parses to a
JSON value. -/
inductive OracleReply where
  | nonText
  | badJson (raw : String)
  | json (j : Json)

/-- The error message prefix raised when `response.content` is not a string. -/
def errNonText : String := "Expected string content from LLM"

/-- The error message prefix raised when `json.loads` fails. -/
def errBadJson : String := "Failed to parse LLM JSON response"

/-- `analyze_sentiment_for_call`: invoke the oracle on the call, reject
non-textual and non-JSON replies, validate the parsed payload against
`SentimentAnalysis`, and return the typed facet together with the raw
parsed payload.  The oracle is modelled as a deterministic function of the
call record (the prompt is built from `call.metadata` and
`call.transcript`). -/
def analyzeSentimentForCall (oracle : CallAnalysis → OracleReply) (call : CallAnalysis) :
    Except String (SentimentAnalysis × Json) :=
  match oracle call with
  | .nonText => .error errNonText
  | .badJson _ => .error errBadJson
  | .json j =>
      match SentimentAnalysis.validate j with
      | .error e => .error e
      | .ok s => .ok (s, j)

/-- `analyze_compliance_for_call`: like the sentiment stage but the prompt
additionally carries the two caller-supplied phrase lists, so the oracle
reply may depend on them. -/
def analyzeComplianceForCall (oracle : List String → List String → CallAnalysis → OracleReply)
    (required_phrases forbidden_phrases : List String) (call : CallAnalysis) :
    Except String (ComplianceRiskAnalysis × Json) :=
  match oracle required_phrases forbidden_phrases call with
  | .nonText => .error errNonText
  | .badJson _ => .error errBadJson
  | .json j =>
      match ComplianceRiskAnalysis.validate j with
      | .error e => .error e
      | .ok s => .ok (s, j)

-- ==========================
-- Per-stage runners (analysis_runner.py)
-- ==========================

/-- Observable side effects of a stage run: oracle invocations and
`save_call` writes, tagged with the file name being processed. -/
inductive RunEvent where
  | oracleCall (id : String)
  | save (id : String)
  deriving DecidableEq, Repr

/-- The `save_call` identifiers of an event trace. -/
def savesOf : List RunEvent → List String
  | [] => []
  | .save id :: rest => id :: savesOf rest
  | .oracleCall _ :: rest => savesOf rest

/-- Result of a stage run: the persisted files after the run (the source
persists each record immediately with `save_call`), the event trace, and
the uncaught exception, if any, that aborted the run.  The source function
returns `None`; it computes no summary. -/
structure RunOutcome where
  files : List (String × CallAnalysis)
  events : List RunEvent
  err : Option String

/-- `run_sentiment_for_all_calls`, over the sorted list of call files.
Each record whose `sentiment` is non-null is skipped; otherwise the stage
function runs and, on success, the facet is assigned, the raw payload is
stored under `raw_llm_outputs["sentiment"]`, and the record is saved.  The
loop body has no exception handler: a stage error propagates, aborting the
run with all remaining records untouched. -/
def runSentimentForAllCalls (oracle : CallAnalysis → OracleReply) :
    List (String × CallAnalysis) → RunOutcome
  | [] => ⟨[], [], none⟩
  | (id, call) :: rest =>
      if call.sentiment.isSome then
        let r := runSentimentForAllCalls oracle rest
        ⟨(id, call) :: r.files, r.events, r.err⟩
      else
        match analyzeSentimentForCall oracle call with
        | .error e => ⟨(id, call) :: rest, [.oracleCall id], some e⟩
        | .ok (sm, raw) =>
            let call' : CallAnalysis :=
              { call with sentiment := some sm,
                          raw_llm_outputs := setKey call.raw_llm_outputs "sentiment" raw }
            let r := runSentimentForAllCalls oracle rest
            ⟨(id, call') :: r.files, .oracleCall id :: .save id :: r.events, r.err⟩

/-- The recursive loop of `run_compliance_for_all_calls` (after the
`None → []` normalization of the two phrase lists). -/
def runComplianceLoop (oracle : List String → List String → CallAnalysis → OracleReply)
    (req forb : List String) : List (String × CallAnalysis) → RunOutcome
  | [] => ⟨[], [], none⟩
  | (id, call) :: rest =>
      if call.compliance_and_risk.isSome then
        let r := runComplianceLoop oracle req forb rest
        ⟨(id, call) :: r.files, r.events, r.err⟩
      else
        match analyzeComplianceForCall oracle req forb call with
        | .error e => ⟨(id, call) :: rest, [.oracleCall id], some e⟩
        | .ok (cm, raw) =>
            let call' : CallAnalysis :=
              { call with compliance_and_risk := some cm,
                          raw_llm_outputs := setKey call.raw_llm_outputs "compliance_and_risk" raw }
            let r := runComplianceLoop oracle req forb rest
            ⟨(id, call') :: r.files, .oracleCall id :: .save id :: r.events, r.err⟩

/-- `run_compliance_for_all_calls`: `required_phrases` and
`forbidden_phrases` default to `None`, normalized to `[]`. -/
def runComplianceForAllCalls (oracle : List String → List String → CallAnalysis → OracleReply)
    (required_phrases forbidden_phrases : Option (List String))
    (files : List (String × CallAnalysis)) : RunOutcome :=
  runComplianceLoop oracle (required_phrases.getD []) (forbidden_phrases.getD []) files

-- ==========================
-- The spec's run_stage contract (§4.3), for comparison with the source
-- ==========================

/-- The `RunSummary` value described by the spec: counts of processed,
skipped and failed records, plus the failed identifiers with reasons.
This definition follows the spec's words (§4.3), not the source; the
source runners return `None`. -/
structure RunSummary where
  processed : Nat
  skipped : Nat
  failed : Nat
  failures : List (String × String)
  deriving DecidableEq, Repr

/-- The spec's `run_stage` algorithm (§4.3) for the sentiment stage,
written from the spec's words: skip-if-present, process-on-success,
and on failure leave the record unmodified, count it as failed, record the
identifier and reason, and continue with the next record.  Used only to
compare the source's behaviour against the spec's contract. -/
def runStageSentimentSpec (oracle : CallAnalysis → OracleReply) :
    List (String × CallAnalysis) → List (String × CallAnalysis) × RunSummary
  | [] => ([], ⟨0, 0, 0, []⟩)
  | (id, call) :: rest =>
      if call.sentiment.isSome then
        let (fs, s) := runStageSentimentSpec oracle rest
        ((id, call) :: fs, ⟨s.processed, s.skipped + 1, s.failed, s.failures⟩)
      else
        match analyzeSentimentForCall oracle call with
        | .error e =>
            let (fs, s) := runStageSentimentSpec oracle rest
            ((id, call) :: fs, ⟨s.processed, s.skipped, s.failed + 1, (id, e) :: s.failures⟩)
        | .ok (sm, raw) =>
            let call' : CallAnalysis :=
              { call with sentiment := some sm,
                          raw_llm_outputs := setKey call.raw_llm_outputs "sentiment" raw }
            let (fs, s) := runStageSentimentSpec oracle rest
            ((id, call') :: fs, ⟨s.processed + 1, s.skipped, s.failed, s.failures⟩)

-- ==========================
-- Storage (storage.py, ingestion.py)
-- ==========================

/-- Python `int(x)` on a non-negative or negative float: truncation toward
zero, on the rational model of the timestamp. -/
def pyTrunc (q : Rat) : Int := q.num.tdiv q.den

/-- `RecordingFile` (ingestion.py).  `stem` is `Path(path).stem`; the
path-to-stem derivation itself is filesystem string handling outside the
model, so the stem is carried alongside the full path. -/
structure RecordingFile where
  path : String
  stem : String
  name : String
  size_bytes : Nat
  modified_time : Rat
  deriving DecidableEq, Repr

/-- `TranscriptionResult` (transcription.py boundary). -/
structure TranscriptionResult where
  recording : RecordingFile
  text : String

/-- `generate_call_id`: the filename stem joined with the truncated
modification timestamp, e.g. `conversation_1732041234`. -/
def generateCallId (r : RecordingFile) : String :=
  r.stem ++ "_" ++ toString (pyTrunc r.modified_time)

/-- `build_call_metadata`.  `now` is the ambient `datetime.utcnow()`
ISO string recorded under `extra_metadata["created_at"]`. -/
def buildCallMetadata (r : RecordingFile) (client_id : String) (now : String) : CallMetadata :=
  ⟨generateCallId r, client_id, r.path, none, none, none, none, none,
   [("size_bytes", .num (ratOfInt r.size_bytes)),
    ("modified_time", .num r.modified_time),
    ("created_at", .str now)]⟩

/-- `build_call_analysis_from_transcription`: a minimal record with only
metadata and transcript; every facet is null. -/
def buildCallAnalysisFromTranscription (result : TranscriptionResult)
    (client_id : String) (now : String) : CallAnalysis :=
  ⟨buildCallMetadata result.recording client_id now, result.text,
   none, none, none, none, none, none, []⟩

/-- The durable record store: one JSON file per call under `data/calls`,
addressed by `call_id`. -/
def CallStore := List (String × CallAnalysis)

/-- `save_call_analysis`: writes `calls/<call_id>.json`, overwriting any
existing file of that name. -/
def saveCallAnalysis : List (String × CallAnalysis) → CallAnalysis → List (String × CallAnalysis)
  | [], c => [(c.metadata.call_id, c)]
  | (id, old) :: rest, c =>
      if id = c.metadata.call_id then (id, c) :: rest
      else (id, old) :: saveCallAnalysis rest c

/-- Load-by-identifier on the record store. -/
def storeGet : List (String × CallAnalysis) → String → Option CallAnalysis
  | [], _ => none
  | (id, c) :: rest, key => if id = key then some c else storeGet rest key

-- ==========================
-- Vector index (vectorstore.py)
-- ==========================

/-- The scalar metadata projection stored with each indexed document
(`build_calls_index`). -/
structure IndexMeta where
  call_id : String
  client_id : String
  audio_file : String
  sentiment : Option String
  primary_intent : Option String
  risk_level : Option String
  quality_score : Option Int
  deriving DecidableEq, Repr

/-- One document in the Chroma collection. -/
structure IndexEntry where
  id : String
  document : String
  metadata : IndexMeta
  deriving DecidableEq, Repr

/-- `call.sentiment.overall.value if call.sentiment and call.sentiment.overall
else None` — a `SentimentLabel` member is a non-empty string, hence truthy. -/
def metaSentiment (c : CallAnalysis) : Option String :=
  c.sentiment.map (fun s => s.overall.value)

/-- `call.intent_and_topics.primary_intent if call.intent_and_topics and
call.intent_and_topics.primary_intent else None` — an empty-string intent is
falsy in Python and becomes `None`. -/
def metaPrimaryIntent (c : CallAnalysis) : Option String :=
  match c.intent_and_topics with
  | none => none
  | some it =>
      match it.primary_intent with
      | none => none
      | some s => if s = "" then none else some s

/-- `call.compliance_and_risk.risk_level.value if call.compliance_and_risk and
call.compliance_and_risk.risk_level else None`. -/
def metaRiskLevel (c : CallAnalysis) : Option String :=
  c.compliance_and_risk.map (fun x => x.risk_level.value)

/-- `call.call_quality.overall_quality_score if call.call_quality and
call.call_quality.overall_quality_score is not None else None`. -/
def metaQualityScore (c : CallAnalysis) : Option Int :=
  match c.call_quality with
  | none => none
  | some q => q.overall_quality_score

/-- The IndexDocument computed for one record inside the build loop. -/
def indexEntryOf (c : CallAnalysis) : IndexEntry :=
  ⟨c.metadata.call_id, c.transcript,
   ⟨c.metadata.call_id, c.metadata.client_id, c.metadata.audio_file,
    metaSentiment c, metaPrimaryIntent c, metaRiskLevel c, metaQualityScore c⟩⟩

/-- Python whitespace characters recognised by `str.strip()` (the ones
that can occur in this pipeline's transcripts). -/
def isPySpace (c : Char) : Bool :=
  c = ' ' || c = '\t' || c = '\n' || c = '\r'

/-- Python `s.strip()`: remove leading and trailing whitespace. -/
def pyStrip (s : String) : String :=
  ⟨(((s.data.dropWhile isPySpace).reverse).dropWhile isPySpace).reverse⟩

/-- `not (transcript or "").strip()`. -/
def isBlank (s : String) : Bool := pyStrip s == ""

/-- The records the build loop collects: those with a non-blank transcript,
in file order. -/
def eligibleCalls (files : List (String × CallAnalysis)) : List CallAnalysis :=
  (files.map Prod.snd).filter (fun c => !(isBlank c.transcript))

/-- Chroma upsert of a single document: replace the document and metadata
stored under an existing id in place, otherwise add the document. -/
def upsertOne (coll : List IndexEntry) (e : IndexEntry) : List IndexEntry :=
  if coll.any (fun c => c.id == e.id) then
    coll.map (fun c => if c.id == e.id then e else c)
  else coll ++ [e]

/-- `build_calls_index`: collect the eligible records' documents and upsert
them into the collection keyed by `call_id` (when no record is eligible the
source returns without touching the collection, which coincides with the
empty fold). -/
def buildCallsIndex (files : List (String × CallAnalysis)) (coll : List IndexEntry) :
    List IndexEntry :=
  ((eligibleCalls files).map indexEntryOf).foldl upsertOne coll

-- ==========================
-- Semantic search (vectorstore.py, run_search_cli.py)
-- ==========================

/-- One match returned by `semantic_search_calls`. -/
structure SearchMatch where
  id : String
  document : String
  metadata : IndexMeta
  distance : Rat
  deriving DecidableEq, Repr

/-- Result of a search call: the matches plus the queries actually
dispatched to the vector index. -/
structure SearchOutcome where
  results : List SearchMatch
  dispatched : List String
  deriving DecidableEq, Repr

/-- `semantic_search_calls`: embeds and dispatches the query to the Chroma
collection (modelled abstractly as a query function) and re-shapes the
parallel result arrays into match dictionaries.  The function performs no
validation of the query text. -/
def semanticSearchCalls (index : String → Nat → List SearchMatch)
    (query : String) (n_results : Nat) : SearchOutcome :=
  ⟨index query n_results, [query]⟩

/-- `run_search_cli.main`: with command-line arguments the query is their
space-join, unstripped; otherwise the interactive line is stripped.  Only a
falsy (empty) query string is rejected without dispatching. -/
def runSearchCliMain (index : String → Nat → List SearchMatch) :
    List String → String → Option SearchOutcome
  | [], stdinLine =>
      let query := pyStrip stdinLine
      if query = "" then none else some (semanticSearchCalls index query 5)
  | a :: args, _ =>
      let query := String.intercalate " " (a :: args)
      if query = "" then none else some (semanticSearchCalls index query 5)

-- ==========================
-- Helper lemmas
-- ==========================

theorem jlookup_setKey_ne (l : List (String × Json)) (k key : String) (v : Json)
    (h : key ≠ k) : jlookup (setKey l k v) key = jlookup l key := by
  induction l with
  | nil =>
      simp only [setKey, jlookup]
      rw [if_neg (fun hh => h hh.symm)]
  | cons a rest ih =>
      obtain ⟨k', v'⟩ := a
      by_cases hk : k' = k
      · simp only [setKey, if_pos hk, jlookup]
        rw [if_neg (fun hh => h hh.symm), if_neg (fun hh => h (hk ▸ hh).symm)]
      · simp only [setKey, if_neg hk, jlookup]
        by_cases hke : k' = key
        · rw [if_pos hke, if_pos hke]
        · rw [if_neg hke, if_neg hke, ih]

theorem storeGet_saveCallAnalysis (store : List (String × CallAnalysis)) (c : CallAnalysis) :
    storeGet (saveCallAnalysis store c) c.metadata.call_id = some c := by
  induction store with
  | nil => simp [saveCallAnalysis, storeGet]
  | cons a rest ih =>
      obtain ⟨id, old⟩ := a
      by_cases hid : id = c.metadata.call_id
      · simp [saveCallAnalysis, hid, storeGet]
      · simp [saveCallAnalysis, hid, storeGet, ih]

theorem foldl_fixed {α β : Type} (f : β → α → β) (b : β) (l : List α)
    (h : ∀ x ∈ l, f b x = b) : l.foldl f b = b := by
  induction l with
  | nil => rfl
  | cons x xs ih =>
      rw [List.foldl_cons, h x (by simp)]
      exact ih (fun y hy => h y (by simp [hy]))

theorem upsertOne_fresh (coll : List IndexEntry) (e : IndexEntry)
    (h : ∀ c ∈ coll, c.id ≠ e.id) : upsertOne coll e = coll ++ [e] := by
  have hany : (coll.any (fun c => c.id == e.id)) = false := by
    rw [List.any_eq_false]
    intro c hc
    simpa using h c hc
  simp [upsertOne, hany]

theorem upsertOne_self (es : List IndexEntry)
    (e : IndexEntry) (he : e ∈ es)
    (huniq : ∀ c ∈ es, c.id = e.id → c = e) : upsertOne es e = es := by
  have hany : (es.any (fun c => c.id == e.id)) = true :=
    List.any_eq_true.2 ⟨e, he, by simp⟩
  rw [upsertOne, if_pos hany]
  have : es.map (fun c => if c.id == e.id then e else c) = es.map id := by
    apply List.map_congr_left
    intro c hc
    by_cases hid : c.id = e.id
    · simp [hid, huniq c hc hid]
    · simp [hid]
  rw [this, List.map_id]

theorem nodup_id_unique (es : List IndexEntry) (h : (es.map IndexEntry.id).Nodup) :
    ∀ e ∈ es, ∀ c ∈ es, c.id = e.id → c = e := by
  induction es with
  | nil => intro e he; cases he
  | cons a rest ih =>
      have h2 : (IndexEntry.id a :: rest.map IndexEntry.id).Nodup := by simpa using h
      intro e he c hc hid
      rcases List.mem_cons.1 he with he | he <;> rcases List.mem_cons.1 hc with hc | hc
      · rw [he, hc]
      · exact absurd (List.mem_map.2 ⟨c, hc, show c.id = a.id by rw [hid, he]⟩)
          (List.nodup_cons.1 h2).1
      · exact absurd (List.mem_map.2 ⟨e, he, show e.id = a.id by rw [← hid, hc]⟩)
          (List.nodup_cons.1 h2).1
      · exact ih (List.nodup_cons.1 h2).2 e he c hc hid

theorem foldl_upsert_app (es : List IndexEntry) :
    ∀ acc : List IndexEntry, (∀ e ∈ es, ∀ c ∈ acc, c.id ≠ e.id) →
      (es.map IndexEntry.id).Nodup → es.foldl upsertOne acc = acc ++ es := by
  induction es with
  | nil => intro acc _ _; simp
  | cons e rest ih =>
      intro acc hfresh hnd
      have h2 : (IndexEntry.id e :: rest.map IndexEntry.id).Nodup := by simpa using hnd
      have hnd2 : (rest.map IndexEntry.id).Nodup := (List.nodup_cons.1 h2).2
      have hnotmem : IndexEntry.id e ∉ rest.map IndexEntry.id := (List.nodup_cons.1 h2).1
      have hfresh2 : ∀ x ∈ rest, ∀ c ∈ acc ++ [e], c.id ≠ x.id := by
        intro x hx c hc
        rcases List.mem_append.1 hc with hc | hc
        · exact hfresh x (by simp [hx]) c hc
        · have hce : c = e := by simpa using hc
          subst hce
          intro hce2
          exact hnotmem (List.mem_map.2 ⟨x, hx, hce2.symm⟩)
      rw [List.foldl_cons, upsertOne_fresh acc e (hfresh e (by simp)),
          ih (acc ++ [e]) hfresh2 hnd2]
      simp

-- ==========================
-- Concrete records used as witnesses
-- ==========================

/-- A well-formed sentiment facet payload, as in the concrete scenario of
the spec (§8). -/
def demoSentimentJson : Json :=
  .obj [("overall", .str "neutral"), ("score", .null), ("emotion_tags", .arr []),
        ("sentiment_timeline", .arr []), ("notes", .null)]

def demoSentiment : SentimentAnalysis := ⟨.neutral, none, [], [], none⟩

def demoMeta (id : String) : CallMetadata :=
  ⟨id, "client_123", "recordings/" ++ id ++ ".wav", none, none, none, none, none, []⟩

/-- A minimal ingested record: metadata and transcript only. -/
def demoCall (id : String) : CallAnalysis :=
  ⟨demoMeta id, "Hello, I would like to reschedule my appointment.",
   none, none, none, none, none, none, []⟩

/-- A record whose sentiment facet is already present. -/
def demoCallSent : CallAnalysis :=
  { demoCall "s" with sentiment := some demoSentiment }

/-- Two minimal call files, identified by their sorted file names. -/
def demoFiles : List (String × CallAnalysis) :=
  [("a.json", demoCall "a"), ("b.json", demoCall "b")]

/-- An oracle that returns malformed JSON for record `a` and the valid
sentiment payload for every other record. -/
def oracleFailA : CallAnalysis → OracleReply := fun c =>
  if c.metadata.call_id = "a" then .badJson "not json" else .json demoSentimentJson

-- ==========================
-- Runner lemmas
-- ==========================

theorem runSent_all_set (oracle : CallAnalysis → OracleReply)
    (files : List (String × CallAnalysis))
    (h : ∀ e ∈ files, e.2.sentiment.isSome = true) :
    runSentimentForAllCalls oracle files = ⟨files, [], none⟩ := by
  induction files with
  | nil => rfl
  | cons e rest ih =>
      obtain ⟨id, call⟩ := e
      have hs : call.sentiment.isSome = true := h (id, call) (by simp)
      have ih2 := ih (fun x hx => h x (by simp [hx]))
      simp [runSentimentForAllCalls, hs, ih2]

theorem runSent_second (oracle : CallAnalysis → OracleReply)
    (files : List (String × CallAnalysis)) :
    (runSentimentForAllCalls oracle (runSentimentForAllCalls oracle files).files).files
        = (runSentimentForAllCalls oracle files).files
    ∧ savesOf (runSentimentForAllCalls oracle (runSentimentForAllCalls oracle files).files).events
        = [] := by
  induction files with
  | nil => exact ⟨rfl, rfl⟩
  | cons e rest ih =>
      obtain ⟨id, call⟩ := e
      by_cases hs : call.sentiment.isSome
      · constructor
        · simp [runSentimentForAllCalls, hs, ih.1]
        · simp [runSentimentForAllCalls, hs, ih.2]
      · rcases hna : analyzeSentimentForCall oracle call with msg | ⟨sm, raw⟩
        · constructor
          · simp [runSentimentForAllCalls, hs, hna, savesOf]
          · simp [runSentimentForAllCalls, hs, hna, savesOf]
        · constructor
          · simp [runSentimentForAllCalls, hs, hna, ih.1]
          · simp [runSentimentForAllCalls, hs, hna, savesOf, ih.2]

theorem runSent_err_firstFailure (oracle : CallAnalysis → OracleReply)
    (files : List (String × CallAnalysis)) :
    (runSentimentForAllCalls oracle files).err
      = ((runStageSentimentSpec oracle files).2.failures.head?).map Prod.snd := by
  induction files with
  | nil => rfl
  | cons e rest ih =>
      obtain ⟨id, call⟩ := e
      by_cases hs : call.sentiment.isSome
      · simp [runSentimentForAllCalls, runStageSentimentSpec, hs, ih]
      · rcases hna : analyzeSentimentForCall oracle call with msg | ⟨sm, raw⟩
        · simp [runSentimentForAllCalls, runStageSentimentSpec, hs, hna]
        · simp [runSentimentForAllCalls, runStageSentimentSpec, hs, hna, ih]

/-- Frame relation between a record before and after the sentiment stage:
everything except the `sentiment` field and the `"sentiment"` raw-output
key is unchanged, an already-set record is untouched, and any change is
exactly the assignment of a successfully validated facet plus its raw
payload. -/
def frameSentiment (oracle : CallAnalysis → OracleReply) (pre post : CallAnalysis) : Prop :=
  post.metadata = pre.metadata ∧ post.transcript = pre.transcript
  ∧ post.intent_and_topics = pre.intent_and_topics
  ∧ post.call_quality = pre.call_quality
  ∧ post.compliance_and_risk = pre.compliance_and_risk
  ∧ post.outcome_and_followup = pre.outcome_and_followup
  ∧ post.custom_metrics = pre.custom_metrics
  ∧ (∀ k, k ≠ "sentiment" → jlookup post.raw_llm_outputs k = jlookup pre.raw_llm_outputs k)
  ∧ (pre.sentiment.isSome = true → post = pre)
  ∧ (pre.sentiment = none → post = pre ∨ ∃ sm raw,
        analyzeSentimentForCall oracle pre = .ok (sm, raw)
        ∧ post.sentiment = some sm
        ∧ post.raw_llm_outputs = setKey pre.raw_llm_outputs "sentiment" raw)

/-- Frame relation for the compliance stage, mirroring `frameSentiment`. -/
def frameCompliance (oracle : List String → List String → CallAnalysis → OracleReply)
    (req forb : List String) (pre post : CallAnalysis) : Prop :=
  post.metadata = pre.metadata ∧ post.transcript = pre.transcript
  ∧ post.sentiment = pre.sentiment
  ∧ post.intent_and_topics = pre.intent_and_topics
  ∧ post.call_quality = pre.call_quality
  ∧ post.outcome_and_followup = pre.outcome_and_followup
  ∧ post.custom_metrics = pre.custom_metrics
  ∧ (∀ k, k ≠ "compliance_and_risk" →
        jlookup post.raw_llm_outputs k = jlookup pre.raw_llm_outputs k)
  ∧ (pre.compliance_and_risk.isSome = true → post = pre)
  ∧ (pre.compliance_and_risk = none → post = pre ∨ ∃ cm raw,
        analyzeComplianceForCall oracle req forb pre = .ok (cm, raw)
        ∧ post.compliance_and_risk = some cm
        ∧ post.raw_llm_outputs = setKey pre.raw_llm_outputs "compliance_and_risk" raw)

theorem frameSentiment_refl (oracle : CallAnalysis → OracleReply) (c : CallAnalysis) :
    frameSentiment oracle c c :=
  ⟨rfl, rfl, rfl, rfl, rfl, rfl, rfl, fun _ _ => rfl, fun _ => rfl, fun _ => Or.inl rfl⟩

theorem frameCompliance_refl (oracle : List String → List String → CallAnalysis → OracleReply)
    (req forb : List String) (c : CallAnalysis) : frameCompliance oracle req forb c c :=
  ⟨rfl, rfl, rfl, rfl, rfl, rfl, rfl, fun _ _ => rfl, fun _ => rfl, fun _ => Or.inl rfl⟩

theorem runSent_frame (oracle : CallAnalysis → OracleReply)
    (files : List (String × CallAnalysis)) :
    List.Forall₂ (fun a b => a.1 = b.1 ∧ frameSentiment oracle a.2 b.2)
        files (runSentimentForAllCalls oracle files).files
    ∧ (∀ id ∈ savesOf (runSentimentForAllCalls oracle files).events,
        ∃ c, (id, c) ∈ files ∧ c.sentiment = none) := by
  induction files with
  | nil => exact ⟨List.Forall₂.nil, by intro id h; cases h⟩
  | cons e rest ih =>
      obtain ⟨id, call⟩ := e
      by_cases hs : call.sentiment.isSome
      · constructor
        · simp only [runSentimentForAllCalls, hs, if_pos]
          exact List.Forall₂.cons ⟨rfl, frameSentiment_refl oracle call⟩ ih.1
        · simp only [runSentimentForAllCalls, hs, if_pos]
          intro i hi
          obtain ⟨c, hc, hcn⟩ := ih.2 i hi
          exact ⟨c, by simp [hc], hcn⟩
      · have hnone : call.sentiment = none := Option.not_isSome_iff_eq_none.1 hs
        rcases hna : analyzeSentimentForCall oracle call with msg | ⟨sm, raw⟩
        · constructor
          · simp only [runSentimentForAllCalls, hs, if_neg, hna]
            exact List.forall₂_same.2
              (fun x _ => ⟨rfl, frameSentiment_refl oracle x.2⟩)
          · simp only [runSentimentForAllCalls, hs, if_neg, hna, savesOf]
            intro i hi; cases hi
        · constructor
          · simp only [runSentimentForAllCalls, hs, if_neg, hna]
            refine List.Forall₂.cons ⟨rfl, ?_⟩ ih.1
            refine ⟨rfl, rfl, rfl, rfl, rfl, rfl, rfl, ?_, ?_, ?_⟩
            · intro k hk
              exact jlookup_setKey_ne call.raw_llm_outputs "sentiment" k raw hk
            · intro hsome
              rw [hnone] at hsome
              cases hsome
            · intro _
              exact Or.inr ⟨sm, raw, hna, rfl, rfl⟩
          · simp only [runSentimentForAllCalls, hs, if_neg, hna, savesOf]
            intro i hi
            rcases List.mem_cons.1 hi with hi | hi
            · exact ⟨call, by simp [hi], hnone⟩
            · obtain ⟨c, hc, hcn⟩ := ih.2 i hi
              exact ⟨c, by simp [hc], hcn⟩

theorem runComp_frame (oracle : List String → List String → CallAnalysis → OracleReply)
    (req forb : List String) (files : List (String × CallAnalysis)) :
    List.Forall₂ (fun a b => a.1 = b.1 ∧ frameCompliance oracle req forb a.2 b.2)
        files (runComplianceLoop oracle req forb files).files
    ∧ (∀ id ∈ savesOf (runComplianceLoop oracle req forb files).events,
        ∃ c, (id, c) ∈ files ∧ c.compliance_and_risk = none) := by
  induction files with
  | nil => exact ⟨List.Forall₂.nil, by intro id h; cases h⟩
  | cons e rest ih =>
      obtain ⟨id, call⟩ := e
      by_cases hs : call.compliance_and_risk.isSome
      · constructor
        · simp only [runComplianceLoop, hs, if_pos]
          exact List.Forall₂.cons ⟨rfl, frameCompliance_refl oracle req forb call⟩ ih.1
        · simp only [runComplianceLoop, hs, if_pos]
          intro i hi
          obtain ⟨c, hc, hcn⟩ := ih.2 i hi
          exact ⟨c, by simp [hc], hcn⟩
      · have hnone : call.compliance_and_risk = none := Option.not_isSome_iff_eq_none.1 hs
        rcases hna : analyzeComplianceForCall oracle req forb call with msg | ⟨cm, raw⟩
        · constructor
          · simp only [runComplianceLoop, hs, if_neg, hna]
            exact List.forall₂_same.2
              (fun x _ => ⟨rfl, frameCompliance_refl oracle req forb x.2⟩)
          · simp only [runComplianceLoop, hs, if_neg, hna, savesOf]
            intro i hi; cases hi
        · constructor
          · simp only [runComplianceLoop, hs, if_neg, hna]
            refine List.Forall₂.cons ⟨rfl, ?_⟩ ih.1
            refine ⟨rfl, rfl, rfl, rfl, rfl, rfl, rfl, ?_, ?_, ?_⟩
            · intro k hk
              exact jlookup_setKey_ne call.raw_llm_outputs "compliance_and_risk" k raw hk
            · intro hsome
              rw [hnone] at hsome
              cases hsome
            · intro _
              exact Or.inr ⟨cm, raw, hna, rfl, rfl⟩
          · simp only [runComplianceLoop, hs, if_neg, hna, savesOf]
            intro i hi
            rcases List.mem_cons.1 hi with hi | hi
            · exact ⟨call, by simp [hi], hnone⟩
            · obtain ⟨c, hc, hcn⟩ := ih.2 i hi
              exact ⟨c, by simp [hc], hcn⟩

-- ==========================
-- Claims
-- ==========================

/-- C1, counterexample.  Failure isolation does not hold: over the two
records `a` and `b` with an oracle that returns malformed JSON for `a`
only, the sentiment run aborts with the parse error after record `a`;
record `b` is left unprocessed (its facet stays null) even though its
oracle reply is a valid facet payload, so the run does not process the
other N−1 records. -/
theorem C1_counterexample :
    (runSentimentForAllCalls oracleFailA demoFiles).err = some errBadJson
    ∧ (runSentimentForAllCalls oracleFailA demoFiles).files = demoFiles
    ∧ exceptOk (SentimentAnalysis.validate demoSentimentJson) = true
    ∧ ((runSentimentForAllCalls oracleFailA demoFiles).files.map
        (fun e => e.2.sentiment.isSome)) = [false, false] :=
  ⟨rfl, rfl, rfl, rfl⟩

/-- C1, amended.  When the oracle call for the first record with an unset
facet fails (non-textual reply, malformed JSON, or schema violation), that
record's persisted state is left unmodified — but the run aborts with that
record's error instead of continuing: every record after it keeps its prior
state untouched and nothing is counted; records before it (already set)
are merely skipped. -/
theorem C1_failure_aborts_run (oracle : CallAnalysis → OracleReply)
    (pre post : List (String × CallAnalysis)) (idk : String) (callk : CallAnalysis)
    (msg : String)
    (hpre : ∀ e ∈ pre, e.2.sentiment.isSome = true)
    (hk : callk.sentiment = none)
    (he : analyzeSentimentForCall oracle callk = .error msg) :
    runSentimentForAllCalls oracle (pre ++ (idk, callk) :: post) =
      ⟨pre ++ (idk, callk) :: post, [.oracleCall idk], some msg⟩ := by
  induction pre with
  | nil => simp [runSentimentForAllCalls, hk, he]
  | cons e pre ih =>
      obtain ⟨id, call⟩ := e
      have hs : call.sentiment.isSome = true := hpre (id, call) (by simp)
      have ih2 := ih (fun x hx => hpre x (by simp [hx]))
      simp [runSentimentForAllCalls, hs, ih2]

/-- C1, witness for the amended theorem at a concrete failing input. -/
theorem C1_failure_aborts_run_witness :
    (demoCall "a").sentiment = none
    ∧ analyzeSentimentForCall oracleFailA (demoCall "a") = .error errBadJson
    ∧ runSentimentForAllCalls oracleFailA [("a.json", demoCall "a"), ("b.json", demoCall "b")] =
        ⟨[("a.json", demoCall "a"), ("b.json", demoCall "b")], [.oracleCall "a.json"],
         some errBadJson⟩ :=
  ⟨rfl, rfl,
   C1_failure_aborts_run oracleFailA [] [("b.json", demoCall "b")] "a.json" (demoCall "a")
     errBadJson (by simp) rfl rfl⟩

/-- C2.  Stage idempotency: a run over records whose facet is already set
performs no oracle call and no write and leaves every record untouched;
and for any record set, running the stage a second time over the output of
a first run changes nothing and saves no record. -/
theorem C2_stage_idempotent (oracle : CallAnalysis → OracleReply)
    (files files2 : List (String × CallAnalysis))
    (h : ∀ e ∈ files, e.2.sentiment.isSome = true) :
    runSentimentForAllCalls oracle files = ⟨files, [], none⟩
    ∧ (runSentimentForAllCalls oracle (runSentimentForAllCalls oracle files2).files).files
        = (runSentimentForAllCalls oracle files2).files
    ∧ savesOf (runSentimentForAllCalls oracle
        (runSentimentForAllCalls oracle files2).files).events = [] :=
  ⟨runSent_all_set oracle files h, (runSent_second oracle files2).1,
   (runSent_second oracle files2).2⟩

/-- C2, witness: a record with its sentiment facet present is skipped
outright, and re-running over the output of a failing two-record run
changes nothing. -/
theorem C2_stage_idempotent_witness :
    runSentimentForAllCalls oracleFailA [("s.json", demoCallSent)] =
      ⟨[("s.json", demoCallSent)], [], none⟩
    ∧ (runSentimentForAllCalls oracleFailA (runSentimentForAllCalls oracleFailA demoFiles).files).files
        = (runSentimentForAllCalls oracleFailA demoFiles).files :=
  ⟨(C2_stage_idempotent oracleFailA [("s.json", demoCallSent)] demoFiles
      (by simp [demoCallSent])).1,
   (C2_stage_idempotent oracleFailA [("s.json", demoCallSent)] demoFiles
      (by simp [demoCallSent])).2.1⟩

/-- C3, counterexample.  The source stage operation returns no RunSummary:
on the two-record input where `a` fails, the spec's `run_stage` contract
(modelled in `runStageSentimentSpec`) reports one processed, one failed
with reason, and leaves `b` processed — while the source runner aborts
with the raw error, processes nothing, and returns no counts or failure
list at all. -/
theorem C3_counterexample :
    (runStageSentimentSpec oracleFailA demoFiles).2 = ⟨1, 0, 1, [("a.json", errBadJson)]⟩
    ∧ ((runStageSentimentSpec oracleFailA demoFiles).1.map
        (fun e => e.2.sentiment.isSome)) = [false, true]
    ∧ ((runSentimentForAllCalls oracleFailA demoFiles).files.map
        (fun e => e.2.sentiment.isSome)) = [false, false]
    ∧ (runSentimentForAllCalls oracleFailA demoFiles).err = some errBadJson :=
  ⟨rfl, rfl, rfl, rfl⟩

/-- C3, amended.  The stage operations return `None` rather than a
RunSummary: they count nothing and list no failures; the only failure
information that escapes is the uncaught exception of the first failing
record — formally, the source run's aborting error is exactly the reason
of the head of the failure list that the spec's `run_stage` contract would
have produced. -/
theorem C3_no_summary (oracle : CallAnalysis → OracleReply)
    (files : List (String × CallAnalysis)) :
    (runSentimentForAllCalls oracle files).err
      = ((runStageSentimentSpec oracle files).2.failures.head?).map Prod.snd :=
  runSent_err_firstFailure oracle files

/-- C4, counterexample.  The claim requires a compliance payload missing
`risk_level` and an outcome payload missing `resolution_status` to fail
validation, but both fields carry declared defaults in the source
(`RiskLevel.low`, `ResolutionStatus.unresolved`), so the empty payload
validates successfully for both facets. -/
theorem C4_counterexample :
    exceptOk (ComplianceRiskAnalysis.validate (Json.obj [])) = true
    ∧ exceptOk (OutcomeFollowupAnalysis.validate (Json.obj [])) = true :=
  ⟨rfl, rfl⟩

/-- C4, amended.  Validation is strict where the source declares no
default: an enum field with an out-of-set value fails, a defaulted-free
required field that is absent fails, and unknown extra top-level fields
are tolerated and ignored; however `risk_level` and `resolution_status`
are declared with defaults, so payloads missing them validate successfully
to `low` and `unresolved` respectively. -/
theorem C4_strictness (s k : String) (v : Json)
    (hs1 : s ≠ "low") (hs2 : s ≠ "medium") (hs3 : s ≠ "high") (hs4 : s ≠ "critical")
    (hk1 : k ≠ "required_phrases_present") (hk2 : k ≠ "missing_required_phrases")
    (hk3 : k ≠ "forbidden_phrases_detected") (hk4 : k ≠ "pii_detected")
    (hk5 : k ≠ "risk_level") (hk6 : k ≠ "notes") :
    exceptOk (ComplianceRiskAnalysis.validate (Json.obj [("risk_level", Json.str s)])) = false
    ∧ ComplianceRiskAnalysis.validate (Json.obj []) = .ok ⟨[], [], [], [], .low, none⟩
    ∧ OutcomeFollowupAnalysis.validate (Json.obj []) = .ok ⟨.unresolved, none, [], false, none, none⟩
    ∧ ComplianceRiskAnalysis.validate (Json.obj [(k, v)]) = .ok ⟨[], [], [], [], .low, none⟩
    ∧ exceptOk (SentimentAnalysis.validate (Json.obj [("score", Json.num (ratOfInt 0))])) = false := by
  refine ⟨?_, rfl, rfl, ?_, rfl⟩
  · simp [ComplianceRiskAnalysis.validate, defField, optField, jlookup,
          parseRiskLevel, hs1, hs2, hs3, hs4, exceptOk]
  · simp [ComplianceRiskAnalysis.validate, defField, optField, jlookup,
          hk1, hk2, hk3, hk4, hk5, hk6]

/-- C4, witness: the amended theorem at the out-of-set risk level
`"severe"` and the unknown extra field `"audit_note"`. -/
theorem C4_strictness_witness :
    exceptOk (ComplianceRiskAnalysis.validate
        (Json.obj [("risk_level", Json.str "severe")])) = false
    ∧ ComplianceRiskAnalysis.validate (Json.obj [("audit_note", Json.obj [])])
        = .ok ⟨[], [], [], [], .low, none⟩ :=
  ⟨(C4_strictness "severe" "audit_note" (Json.obj []) (by decide) (by decide) (by decide)
      (by decide) (by decide) (by decide) (by decide) (by decide) (by decide) (by decide)).1,
   (C4_strictness "severe" "audit_note" (Json.obj []) (by decide) (by decide) (by decide)
      (by decide) (by decide) (by decide) (by decide) (by decide) (by decide) (by decide)).2.2.2.1⟩

/-- C5, counterexample.  The call-quality scores are declared as plain
optional ints with no range constraint: a payload with
`overall_quality_score = 150`, `greeting = 150` and
`listening_and_empathy = -5` validates successfully, contradicting the
claimed 0–100 range check. -/
theorem C5_counterexample :
    CallQualityAnalysis.validate (Json.obj
        [("overall_quality_score", Json.num (ratOfInt 150)),
         ("scores", Json.obj [("greeting", Json.num (ratOfInt 150)),
                              ("listening_and_empathy", Json.num (ratOfInt (-5)))])])
      = .ok ⟨some 150, ⟨some 150, some (-5), none, none, none⟩, [], [], none⟩ :=
  rfl

/-- C5, amended.  Quality-score validation checks only that a supplied
value is an integer (or absent/null): every integer value, including
values outside 0–100, is accepted for `overall_quality_score` and for each
sub-score. -/
theorem C5_scores_unchecked (n : Int) :
    CallQualityScores.validate (Json.obj [("greeting", Json.num (ratOfInt n))])
      = .ok ⟨some n, none, none, none, none⟩
    ∧ CallQualityAnalysis.validate (Json.obj [("overall_quality_score", Json.num (ratOfInt n))])
      = .ok ⟨some n, CallQualityScores.default, [], [], none⟩ := by
  constructor
  · simp [CallQualityScores.validate, optField, jlookup, optJson, parseInt, ratOfInt]
  · simp [CallQualityAnalysis.validate, optField, defField, jlookup, optJson,
          parseInt, ratOfInt, CallQualityScores.default]

/-- C6.  Serialization round trip: `save_call` persists
`model_dump(mode="json")` and `load_call` applies `model_validate`;
for every record, loading the saved representation returns the record
unchanged in every field (metadata, transcript, all five facets,
custom metrics and raw oracle outputs). -/
theorem C6_round_trip (call : CallAnalysis) :
    CallAnalysis.validate (CallAnalysis.dump call) = .ok call :=
  callAnalysis_rt call

/-- Recording discovered under `recordings/east`. -/
def recEast : RecordingFile :=
  ⟨"recordings/east/conversation.wav", "conversation", "conversation.wav",
   100, ratOfInt 1732041234⟩

/-- Recording discovered under `recordings/west`, same stem, same
truncated modification timestamp. -/
def recWest : RecordingFile :=
  ⟨"recordings/west/conversation.wav", "conversation", "conversation.wav",
   250, ratOfInt 1732041234⟩

/-- C7, counterexample.  Two distinct recordings (different paths) whose
filename stem and truncated modification time coincide are assigned the
same call id, and persisting the second silently replaces the first
recording's record: the store holds a single record, the one built from
the second recording. -/
theorem C7_counterexample :
    recEast.path ≠ recWest.path
    ∧ generateCallId recEast = generateCallId recWest
    ∧ (saveCallAnalysis (saveCallAnalysis []
          (buildCallAnalysisFromTranscription ⟨recEast, "hello"⟩ "client_123" "t0"))
          (buildCallAnalysisFromTranscription ⟨recWest, "hi there"⟩ "client_123" "t0")).length = 1
    ∧ storeGet (saveCallAnalysis (saveCallAnalysis []
          (buildCallAnalysisFromTranscription ⟨recEast, "hello"⟩ "client_123" "t0"))
          (buildCallAnalysisFromTranscription ⟨recWest, "hi there"⟩ "client_123" "t0"))
        (generateCallId recEast)
      = some (buildCallAnalysisFromTranscription ⟨recWest, "hi there"⟩ "client_123" "t0") :=
  ⟨by decide, rfl, rfl, rfl⟩

/-- C7, amended.  The ingestion call id is determined solely by the
filename stem and the truncated modification time, so recordings agreeing
on both collide; and persistence is keyed by call id alone — saving a
record stores it under its call id, replacing whatever record was
previously stored there. -/
theorem C7_id_collision (r1 r2 : RecordingFile) (store : List (String × CallAnalysis))
    (c : CallAnalysis) (h1 : r1.stem = r2.stem)
    (h2 : pyTrunc r1.modified_time = pyTrunc r2.modified_time) :
    generateCallId r1 = generateCallId r2
    ∧ storeGet (saveCallAnalysis store c) c.metadata.call_id = some c :=
  ⟨by rw [generateCallId, generateCallId, h1, h2], storeGet_saveCallAnalysis store c⟩

/-- C7, witness for the amended theorem at the two colliding recordings. -/
theorem C7_id_collision_witness :
    generateCallId recEast = generateCallId recWest
    ∧ storeGet (saveCallAnalysis [] (demoCall "a")) "a" = some (demoCall "a") :=
  ⟨(C7_id_collision recEast recWest [] (demoCall "a") rfl rfl).1,
   (C7_id_collision recEast recWest [] (demoCall "a") rfl rfl).2⟩

/-- C8.  Index upsert idempotence: when the eligible records carry
pairwise distinct call ids, building the index twice from the same record
set yields exactly the eligible documents — one per record with a
non-blank transcript, none for blank ones, with no duplication; the
second build replaces each document in place. -/
theorem C8_index_upsert_idempotent (files : List (String × CallAnalysis))
    (h : (((eligibleCalls files).map indexEntryOf).map IndexEntry.id).Nodup) :
    buildCallsIndex files (buildCallsIndex files []) = (eligibleCalls files).map indexEntryOf
    ∧ (buildCallsIndex files (buildCallsIndex files [])).length = (eligibleCalls files).length
    ∧ (buildCallsIndex files (buildCallsIndex files [])).map IndexEntry.id
        = (eligibleCalls files).map (fun c => c.metadata.call_id) := by
  have hids : ((eligibleCalls files).map indexEntryOf).map IndexEntry.id
      = (eligibleCalls files).map (fun c => c.metadata.call_id) := by
    rw [List.map_map]; rfl
  have h1 : buildCallsIndex files [] = (eligibleCalls files).map indexEntryOf := by
    unfold buildCallsIndex
    rw [foldl_upsert_app _ [] (by intro e _ c hc; cases hc) h]
    simp
  have h2 : buildCallsIndex files ((eligibleCalls files).map indexEntryOf)
      = (eligibleCalls files).map indexEntryOf := by
    unfold buildCallsIndex
    apply foldl_fixed
    intro e he
    exact upsertOne_self _ e he (nodup_id_unique _ h e he)
  rw [h1]
  exact ⟨h2, by rw [h2, List.length_map], by rw [h2, hids]⟩

/-- Record with a whitespace-only transcript, excluded from the index. -/
def blankCall : CallAnalysis := { demoCall "blank" with transcript := "   " }

/-- Corpus for the index witness: one eligible record, one blank one. -/
def demoIndexFiles : List (String × CallAnalysis) :=
  [("a.json", demoCall "a"), ("blank.json", blankCall)]

/-- C8, witness: over one eligible and one blank record the double build
holds exactly the single eligible document. -/
theorem C8_index_upsert_idempotent_witness :
    buildCallsIndex demoIndexFiles (buildCallsIndex demoIndexFiles [])
        = (eligibleCalls demoIndexFiles).map indexEntryOf
    ∧ (buildCallsIndex demoIndexFiles (buildCallsIndex demoIndexFiles [])).length = 1 := by
  have h := C8_index_upsert_idempotent demoIndexFiles (by decide)
  exact ⟨h.1, by rw [h.2.1]; rfl⟩

/-- Vector index that returns no matches, for concrete search runs. -/
def emptyIndex : String → Nat → List SearchMatch := fun _ _ => []

/-- C9, counterexample.  A whitespace-only query supplied as a
command-line argument is truthy in Python, so the CLI does not reject it:
the blank query `" "` is dispatched to the vector index, contradicting the
claim that blank queries never reach the index. -/
theorem C9_counterexample :
    pyStrip " " = ""
    ∧ runSearchCliMain emptyIndex [" "] "" = some ⟨[], [" "]⟩ :=
  ⟨rfl, rfl⟩

/-- C9, amended.  Only a falsy (empty) query string is rejected:
`semantic_search_calls` itself dispatches every query it is given without
validation; the CLI rejects the empty string — on the interactive path the
input is stripped first, so whitespace-only interactive input is rejected,
but on the argument path the joined query is checked unstripped, so a
whitespace-only argument query is dispatched. -/
theorem C9_only_empty_rejected (index : String → Nat → List SearchMatch)
    (q : String) (n : Nat) (s a : String) (args : List String) :
    (semanticSearchCalls index q n).dispatched = [q]
    ∧ (runSearchCliMain index [] s = none ↔ pyStrip s = "")
    ∧ (runSearchCliMain index (a :: args) s = none
        ↔ String.intercalate " " (a :: args) = "") := by
  refine ⟨rfl, ?_, ?_⟩
  · by_cases h : pyStrip s = "" <;> simp [runSearchCliMain, h]
  · by_cases h : String.intercalate " " (a :: args) = "" <;> simp [runSearchCliMain, h]

/-- C10.  Stage-run frame property, for the sentiment and compliance
runners: positionally, each record of the post-state keeps its file name
and agrees with its pre-state record on the metadata, transcript, the four
other facet fields, custom metrics and every raw-output key other than the
stage's own; an already-set record is returned unchanged, any change is
exactly the successful assignment of the validated facet plus its raw
payload, and every saved file corresponds to a record whose facet was
null before the run (skipped records are never rewritten). -/
theorem C10_stage_frame (oracle : CallAnalysis → OracleReply)
    (co : List String → List String → CallAnalysis → OracleReply)
    (req forb : List String) (files : List (String × CallAnalysis)) :
    List.Forall₂ (fun a b => a.1 = b.1 ∧ frameSentiment oracle a.2 b.2)
        files (runSentimentForAllCalls oracle files).files
    ∧ (∀ id ∈ savesOf (runSentimentForAllCalls oracle files).events,
        ∃ c, (id, c) ∈ files ∧ c.sentiment = none)
    ∧ List.Forall₂ (fun a b => a.1 = b.1 ∧ frameCompliance co req forb a.2 b.2)
        files (runComplianceLoop co req forb files).files
    ∧ (∀ id ∈ savesOf (runComplianceLoop co req forb files).events,
        ∃ c, (id, c) ∈ files ∧ c.compliance_and_risk = none) :=
  ⟨(runSent_frame oracle files).1, (runSent_frame oracle files).2,
   (runComp_frame co req forb files).1, (runComp_frame co req forb files).2⟩

/-- Compliance oracle returning non-textual content, for concrete runs. -/
def oracleCompNonText : List String → List String → CallAnalysis → OracleReply :=
  fun _ _ _ => .nonText

/-- C10, witness: the frame relation instantiated on the two-record
corpus with the failing sentiment oracle. -/
theorem C10_stage_frame_witness :
    List.Forall₂ (fun a b => a.1 = b.1 ∧ frameSentiment oracleFailA a.2 b.2)
        demoFiles (runSentimentForAllCalls oracleFailA demoFiles).files :=
  (C10_stage_frame oracleFailA oracleCompNonText [] [] demoFiles).1
